import Mathlib

/-!
Verification of the unesco course-sync endpoint
(sites/unesco/src/backend/unesco/courses_api/api.py).

The Django and richie library layers (ORM get/create calls, the page
helper, the keyed signature function) are external to the repository:
they are shallowly embedded here as operations on an explicit content
store, and the signature function is a parameter, since the code only
compares its output strings for equality.
-/

namespace CourseSync

/-- An organization record: identified by a code, owns a page. -/
structure Organization where
  id : Nat
  code : String
deriving DecidableEq, Repr

/-- A CMS page: hierarchical content node with a draft flag, an optional
fixed reverse identifier, an optional owning organization, an optional
parent, a navigation flag, a template and the placeholder slots the
template provides. -/
structure Page where
  id : Nat
  title : String
  reverse_id : Option String
  publisher_is_draft : Bool
  organization : Option Nat
  parent : Option Nat
  in_navigation : Bool
  template : String
  placeholders : List String
deriving DecidableEq, Repr

/-- A course record: bound to a page (extended_object) and storing a code. -/
structure Course where
  id : Nat
  extended_object : Nat
  code : String
deriving DecidableEq, Repr

/-- A plugin instance attached to a placeholder slot of a page,
pointing at a target page, in a given language. -/
structure PluginModel where
  page : Nat
  slot : String
  language : String
  plugin_type : String
  target_page : Nat
deriving DecidableEq, Repr

/-- The persistent content store the endpoint reads and writes.
The templates field maps a template name to the placeholder slots it
declares; page_roles records courses whose page role was created;
org_permissions records (course id, organization id) permission grants. -/
structure Store where
  pages : List Page
  organizations : List Organization
  courses : List Course
  plugins : List PluginModel
  page_roles : List Nat
  org_permissions : List (Nat × Nat)
  templates : List (String × List String)
  nextId : Nat
deriving DecidableEq, Repr

/-- Events of one create_course execution, in order: the three lookups,
the writes of steps 4 to 8, and the placeholder lookup between them. -/
inductive Event where
  | lookupCoursesPage
  | lookupOrganization
  | lookupOrganizationPage
  | writeCreatePage
  | writeCreateCourse
  | writeCreatePageRole
  | lookupPlaceholder
  | writeAddPlugin
  | writeGrantPermissions
deriving DecidableEq, Repr

/-- Serialized validation-error detail, as produced by
as_serializer_error: a mapping from field name to a list of messages. -/
abbrev ErrorDetail := List (String × List String)

/-- Result of create_course: success, a caught-able ValidationError, or
an uncaught fault (a Django DoesNotExist or similar), carrying its
message. -/
inductive CreateResult where
  | ok
  | validationError (detail : ErrorDetail)
  | fault (msg : String)
deriving DecidableEq, Repr

/-- Outcome of create_course: the result, the store after the run
(including any writes made before a fault), and the event trace. -/
structure CreateOutcome where
  result : CreateResult
  store : Store
  events : List Event
deriving DecidableEq, Repr

/-- Body of an HTTP response: plain text, or a structured JSON object
that is empty (none) or of the form with single key error holding a
serialized validation detail (some detail). -/
inductive RespBody where
  | text (s : String)
  | json (error : Option ErrorDetail)
deriving DecidableEq, Repr

/-- An HTTP response: status code and body. -/
structure Response where
  status : Nat
  body : RespBody
deriving DecidableEq, Repr

/-- Outcome of one endpoint invocation: an HTTP response together with
the resulting store, or an unhandled exception (propagating fault) with
the store as left at that point. -/
inductive EndpointOutcome where
  | response (r : Response) (s : Store)
  | unhandled (msg : String) (s : Store)
deriving DecidableEq, Repr

/-- Django ORM Page.objects.get(reverse_id=rid, publisher_is_draft=True):
the unique matching draft page, or a DoesNotExist / multiple-returned
fault. -/
def pageGetByReverseId (s : Store) (rid : String) : Except String Page :=
  match s.pages.filter (fun p => p.reverse_id == some rid && p.publisher_is_draft) with
  | [p] => .ok p
  | [] => .error "Page matching query does not exist."
  | _ => .error "get() returned more than one Page."

/-- Django ORM Organization.objects.get(code=c): the unique organization
with that exact code, or a fault. -/
def orgGetByCode (s : Store) (c : String) : Except String Organization :=
  match s.organizations.filter (fun o => o.code == c) with
  | [o] => .ok o
  | [] => .error "Organization matching query does not exist."
  | _ => .error "get() returned more than one Organization."

/-- Django ORM Page.objects.get(organization=oid, publisher_is_draft=True):
the unique draft page owned by that organization, or a fault. -/
def pageGetByOrganization (s : Store) (oid : Nat) : Except String Page :=
  match s.pages.filter (fun p => p.organization == some oid && p.publisher_is_draft) with
  | [p] => .ok p
  | [] => .error "Page matching query does not exist."
  | _ => .error "get() returned more than one Page."

/-- Python str.upper applied to the organization code: uppercase every
character (ASCII case mapping, the case relevant to organization
codes). -/
def strUpper (s : String) : String := String.mk (s.data.map Char.toUpper)

/-- The course content-type default template, Course.PAGE of richie. -/
def coursePageTemplate : String := "courses/cms/course_detail.html"

/-- richie create_i18n_page(title, in_navigation, parent, reverse_id,
template): creates a fresh draft page under the given parent with the
given attributes; its placeholder slots come from the template. -/
def create_i18n_page (s : Store) (title : String) (in_navigation : Bool)
    (parent : Option Nat) (reverse_id : Option String) (template : String) :
    Page × Store :=
  let p : Page :=
    { id := s.nextId
      title := title
      reverse_id := reverse_id
      publisher_is_draft := true
      organization := none
      parent := parent
      in_navigation := in_navigation
      template := template
      placeholders := ((s.templates.lookup template).getD []) }
  (p, { s with pages := s.pages ++ [p], nextId := s.nextId + 1 })

/-- Django ORM Course.objects.create(extended_object=page, code=code). -/
def courseCreate (s : Store) (pageId : Nat) (code : String) : Course × Store :=
  let c : Course := { id := s.nextId, extended_object := pageId, code := code }
  (c, { s with courses := s.courses ++ [c], nextId := s.nextId + 1 })

/-- richie course.create_page_role(): records the page role group. -/
def createPageRole (s : Store) (courseId : Nat) : Store :=
  { s with page_roles := s.page_roles ++ [courseId] }

/-- course.extended_object.placeholders.get(slot=slot): the slot must
exist on the page, else a DoesNotExist fault. -/
def placeholderGet (page : Page) (slot : String) : Except String String :=
  if page.placeholders.contains slot then .ok slot
  else .error "Placeholder matching query does not exist."

/-- cms add_plugin(language, placeholder, plugin_type, page=target). -/
def addPlugin (s : Store) (lang : String) (pageId : Nat) (slot : String)
    (plugin_type : String) (targetPage : Nat) : Store :=
  { s with plugins := s.plugins ++
      [{ page := pageId, slot := slot, language := lang,
         plugin_type := plugin_type, target_page := targetPage }] }

/-- richie course.create_permissions_for_organization(org). -/
def createPermissionsForOrganization (s : Store) (courseId : Nat) (orgId : Nat) :
    Store :=
  { s with org_permissions := s.org_permissions ++ [(courseId, orgId)] }

/-- The request payload: a string-keyed mapping of string values. -/
abbrev Data := List (String × String)

/-- The composite ValidationError detail raised when a required key is
absent from the payload. -/
def missingFieldsDetail : ErrorDetail :=
  [("input_data", ["You must pass course_code, course_title and organization_code."])]

/-- The event trace of a successful create_course run. -/
def successTrace : List Event :=
  [Event.lookupCoursesPage, Event.lookupOrganization, Event.lookupOrganizationPage,
   Event.writeCreatePage, Event.writeCreateCourse, Event.writeCreatePageRole,
   Event.lookupPlaceholder, Event.writeAddPlugin, Event.writeGrantPermissions]

/-- Shallow embedding of create_course(data): read the three required
keys (any KeyError becomes the composite ValidationError), locate the
canonical courses draft page, the organization by uppercased code and
its draft page, create the i18n page and the course, create the page
role, attach the organization plugin to the course_organizations
placeholder in the current language, then grant permissions. Lookup
faults abort with the store as written so far. -/
def create_course (data : Data) (lang : String) (s : Store) : CreateOutcome :=
  match data.lookup "course_code", data.lookup "course_title",
        data.lookup "organization_code" with
  | some code, some title, some organization_code =>
    match pageGetByReverseId s "courses" with
    | .error m => { result := .fault m, store := s, events := [.lookupCoursesPage] }
    | .ok courses_page =>
      match orgGetByCode s (strUpper organization_code) with
      | .error m => { result := .fault m, store := s,
                      events := [.lookupCoursesPage, .lookupOrganization] }
      | .ok org_obj =>
        match pageGetByOrganization s org_obj.id with
        | .error m => { result := .fault m, store := s,
                        events := [.lookupCoursesPage, .lookupOrganization,
                                   .lookupOrganizationPage] }
        | .ok organization_page =>
          let pr := create_i18n_page s title false (some courses_page.id) none
            coursePageTemplate
          let page_obj := pr.1
          let s1 := pr.2
          let cr := courseCreate s1 page_obj.id code
          let course_obj := cr.1
          let s2 := cr.2
          let s3 := createPageRole s2 course_obj.id
          match placeholderGet page_obj "course_organizations" with
          | .error m => { result := .fault m, store := s3,
                          events := [.lookupCoursesPage, .lookupOrganization,
                                     .lookupOrganizationPage, .writeCreatePage,
                                     .writeCreateCourse, .writeCreatePageRole,
                                     .lookupPlaceholder] }
          | .ok slot =>
            let s4 := addPlugin s3 lang page_obj.id slot "OrganizationPlugin"
              organization_page.id
            let s5 := createPermissionsForOrganization s4 course_obj.id org_obj.id
            { result := .ok, store := s5, events := successTrace }
  | _, _, _ => { result := .validationError missingFieldsDetail, store := s,
                 events := [] }

/-- The any-secret signature check of create_courses_from_request: the
header matches the signature of the body under at least one configured
secret. The signature function itself is external (richie
get_signature) and passed as a parameter. -/
def signature_is_valid (body header : String) (secrets : List String)
    (sig : String → String → String) : Bool :=
  secrets.any (fun secret => header == sig body secret)

/-- Shallow embedding of create_courses_from_request: a falsy (absent or
empty) Authorization header gives 403, a header matching no secret
gives 401, otherwise create_course runs; a ValidationError is caught
into a 400 response with the serialized detail under key error, success
gives 200 with the empty object, and any other fault propagates. -/
def create_courses_from_request (body : String) (header : Option String)
    (secrets : List String) (sig : String → String → String)
    (data : Data) (lang : String) (s : Store) : EndpointOutcome :=
  match header with
  | none => .response { status := 403, body := .text "Missing authentication." } s
  | some h =>
    if h = "" then
      .response { status := 403, body := .text "Missing authentication." } s
    else if signature_is_valid body h secrets sig then
      let out := create_course data lang s
      match out.result with
      | .ok => .response { status := 200, body := .json none } out.store
      | .validationError d =>
          .response { status := 400, body := .json (some d) } out.store
      | .fault m => .unhandled m out.store
    else
      .response { status := 401, body := .text "Invalid authentication." } s

/-- A concrete deterministic keyed signature function used to exercise
the verifier in closed instances. -/
def sigDemo (message secret : String) : String := secret ++ "." ++ message

/-- The empty content store. -/
def emptyStore : Store :=
  { pages := [], organizations := [], courses := [], plugins := [],
    page_roles := [], org_permissions := [], templates := [], nextId := 0 }

/-- Helper: when any of the three required keys is absent from the
payload, create_course returns the composite ValidationError at once,
with the store untouched and no events. -/
theorem create_course_missing_key (data : Data) (lang : String) (s : Store)
    (h : data.lookup "course_code" = none ∨ data.lookup "course_title" = none ∨
      data.lookup "organization_code" = none) :
    create_course data lang s =
      { result := .validationError missingFieldsDetail, store := s, events := [] } := by
  unfold create_course
  rcases ha : data.lookup "course_code" with _ | code <;>
  rcases hb : data.lookup "course_title" with _ | title <;>
  rcases hc : data.lookup "organization_code" with _ | oc <;>
    simp_all

/-- C1: signature verification succeeds exactly when the header equals
the signature of the body under at least one configured secret; in
particular every configured secret authenticates its own signature, and
the empty secret list always fails. -/
theorem claim_C1_signature_verification (body header : String)
    (secrets : List String) (sig : String → String → String) :
    (signature_is_valid body header secrets sig = true ↔
      ∃ S, S ∈ secrets ∧ header = sig body S) ∧
    (∀ S, S ∈ secrets →
      signature_is_valid body (sig body S) secrets sig = true) ∧
    signature_is_valid body header [] sig = false := by
  refine ⟨?_, ?_, rfl⟩
  · simp [signature_is_valid, List.any_eq_true]
  · intro S hS
    simp only [signature_is_valid, List.any_eq_true]
    exact ⟨S, hS, by simp⟩

/-- Witness for C1 at concrete inputs: the second secret of a two-secret
list authenticates its own signature, and the empty list rejects. -/
theorem claim_C1_signature_verification_witness :
    signature_is_valid "payload" (sigDemo "payload" "s1") ["s0", "s1"] sigDemo = true ∧
    signature_is_valid "payload" "whatever" [] sigDemo = false := by
  constructor
  · exact (claim_C1_signature_verification "payload" "x" ["s0", "s1"] sigDemo).2.1
      "s1" (by simp)
  · exact (claim_C1_signature_verification "payload" "whatever" [] sigDemo).2.2

/-- C2 counterexample: an empty Authorization header is present (not
absent) and matches no secret, yet the endpoint answers 403 Missing
authentication. instead of the 401 the claim requires for every present
non-matching header. -/
theorem claim_C2_counterexample :
    (some "" : Option String) ≠ none ∧
    signature_is_valid "demo" "" ["k"] sigDemo = false ∧
    create_courses_from_request "demo" (some "") ["k"] sigDemo [] "en" emptyStore =
      .response { status := 403, body := .text "Missing authentication." } emptyStore :=
  ⟨by simp, rfl, rfl⟩

/-- C2 (amended): an absent header yields 403 Missing authentication.;
a present and non-empty header matching no configured secret yields 401
Invalid authentication.; the two outcomes differ in status code and
body. -/
theorem claim_C2_auth_outcomes (body h : String) (secrets : List String)
    (sig : String → String → String) (data : Data) (lang : String) (s : Store)
    (hne : h ≠ "")
    (hmiss : signature_is_valid body h secrets sig = false) :
    create_courses_from_request body none secrets sig data lang s =
      .response { status := 403, body := .text "Missing authentication." } s ∧
    create_courses_from_request body (some h) secrets sig data lang s =
      .response { status := 401, body := .text "Invalid authentication." } s ∧
    (403 : Nat) ≠ 401 ∧
    RespBody.text "Missing authentication." ≠ RespBody.text "Invalid authentication." := by
  refine ⟨rfl, ?_, by simp, by simp⟩
  simp [create_courses_from_request, hne, hmiss]

/-- Witness for C2 (amended): a concrete present non-matching header is
answered with 401 Invalid authentication. -/
theorem claim_C2_auth_outcomes_witness :
    create_courses_from_request "demo" (some "zzz") ["k"] sigDemo [] "en" emptyStore =
      .response { status := 401, body := .text "Invalid authentication." } emptyStore :=
  (claim_C2_auth_outcomes "demo" "zzz" ["k"] sigDemo [] "en" emptyStore
    (by simp) rfl).2.1

/-- C9: a request whose Authorization header is present but equal to the
empty string is treated exactly like a missing header: 403 Missing
authentication., never 401, regardless of the configured secrets,
because the header check is a truthiness test. -/
theorem claim_C9_empty_header_is_forbidden (body : String)
    (secrets : List String) (sig : String → String → String)
    (data : Data) (lang : String) (s : Store) :
    create_courses_from_request body (some "") secrets sig data lang s =
      .response { status := 403, body := .text "Missing authentication." } s ∧
    create_courses_from_request body none secrets sig data lang s =
      .response { status := 403, body := .text "Missing authentication." } s :=
  ⟨rfl, rfl⟩

/-- C3: a payload missing any of the three required fields makes
create_course raise the single composite ValidationError naming all
three field names together under one key, and the endpoint surfaces it
as a 400 response whose structured body carries that detail under the
error key. -/
theorem claim_C3_missing_fields (body h : String) (secrets : List String)
    (sig : String → String → String) (data : Data) (lang : String) (s : Store)
    (hne : h ≠ "")
    (hok : signature_is_valid body h secrets sig = true)
    (hmiss : data.lookup "course_code" = none ∨ data.lookup "course_title" = none ∨
      data.lookup "organization_code" = none) :
    (create_course data lang s).result = .validationError missingFieldsDetail ∧
    missingFieldsDetail =
      [("input_data",
        ["You must pass course_code, course_title and organization_code."])] ∧
    create_courses_from_request body (some h) secrets sig data lang s =
      .response { status := 400, body := .json (some missingFieldsDetail) } s := by
  have hc := create_course_missing_key data lang s hmiss
  refine ⟨by rw [hc], rfl, ?_⟩
  simp [create_courses_from_request, hne, hok, hc]

/-- Witness for C3: a payload missing course_code, with valid
authentication, is answered 400 with the composite detail. -/
theorem claim_C3_missing_fields_witness :
    create_courses_from_request "demo" (some "k.demo") ["k"] sigDemo
      [("course_title", "T"), ("organization_code", "O")] "en" emptyStore =
      .response { status := 400, body := .json (some missingFieldsDetail) }
        emptyStore :=
  (claim_C3_missing_fields "demo" "k.demo" ["k"] sigDemo
    [("course_title", "T"), ("organization_code", "O")] "en" emptyStore
    (by simp) rfl (Or.inl rfl)).2.2

/-- Helper: when all three required keys are present, the result of
create_course is never the ValidationError: it is success or a lookup
fault, and the trace starts with the courses-page lookup. -/
theorem create_course_all_keys (data : Data) (lang : String) (s : Store)
    (code title oc : String)
    (ha : data.lookup "course_code" = some code)
    (hb : data.lookup "course_title" = some title)
    (hc : data.lookup "organization_code" = some oc) :
    ((create_course data lang s).result = .ok ∨
      ∃ m, (create_course data lang s).result = .fault m) ∧
    (create_course data lang s).events.head? = some Event.lookupCoursesPage := by
  unfold create_course
  simp only [ha, hb, hc]
  split
  · simp
  · split
    · simp
    · split
      · simp
      · split
        · simp
        · simp [successTrace]

/-- Helper: every create_course run is the untouched-store composite
ValidationError, a lookup fault whose trace opens on the courses-page
lookup, or a success carrying the full success trace. -/
theorem create_course_classify (data : Data) (lang : String) (s : Store) :
    create_course data lang s =
        { result := .validationError missingFieldsDetail, store := s, events := [] } ∨
      (∃ m, (create_course data lang s).result = .fault m ∧
        (create_course data lang s).events.head? = some Event.lookupCoursesPage) ∨
      ((create_course data lang s).result = .ok ∧
        (create_course data lang s).events = successTrace) := by
  rcases ha : data.lookup "course_code" with _ | code
  · exact Or.inl (create_course_missing_key data lang s (Or.inl ha))
  rcases hb : data.lookup "course_title" with _ | title
  · exact Or.inl (create_course_missing_key data lang s (Or.inr (Or.inl hb)))
  rcases hc : data.lookup "organization_code" with _ | oc
  · exact Or.inl (create_course_missing_key data lang s (Or.inr (Or.inr hc)))
  unfold create_course
  simp only [ha, hb, hc]
  split
  · exact Or.inr (Or.inl ⟨_, rfl, rfl⟩)
  · split
    · exact Or.inr (Or.inl ⟨_, rfl, rfl⟩)
    · split
      · exact Or.inr (Or.inl ⟨_, rfl, rfl⟩)
      · split
        · exact Or.inr (Or.inl ⟨_, rfl, rfl⟩)
        · exact Or.inr (Or.inr ⟨rfl, rfl⟩)

/-- Helper: the only ValidationError create_course ever produces is the
composite missing-fields one, and it leaves the store untouched with an
empty trace. -/
theorem create_course_validation_inv (data : Data) (lang : String) (s : Store)
    (d : ErrorDetail)
    (h : (create_course data lang s).result = .validationError d) :
    d = missingFieldsDetail ∧ (create_course data lang s).store = s ∧
      (create_course data lang s).events = [] := by
  rcases create_course_classify data lang s with hcl | ⟨m, hm, _⟩ | ⟨hok, _⟩
  · rw [hcl] at h ⊢
    have hd : CreateResult.validationError missingFieldsDetail = .validationError d := h
    cases hd
    exact ⟨rfl, rfl, rfl⟩
  · rw [hm] at h; simp at h
  · rw [hok] at h; simp at h

/-- Helper: a successful orgGetByCode returns an organization whose
stored code is exactly the queried code. -/
theorem orgGetByCode_code (s : Store) (c : String) (o : Organization)
    (h : orgGetByCode s c = .ok o) : o.code = c := by
  unfold orgGetByCode at h
  rcases hf : s.organizations.filter (fun o => o.code == c) with _ | ⟨o1, l⟩
  · rw [hf] at h; simp at h
  · rcases l with _ | ⟨o2, l2⟩
    · rw [hf] at h
      have h2 : o1 = o := by simpa using h
      have hmem : o1 ∈ s.organizations.filter (fun x => x.code == c) := by
        rw [hf]; simp
      have h3 := (List.mem_filter.mp hmem).2
      rw [← h2]
      simpa using h3
    · rw [hf] at h; simp at h

/-- Helper: the trace of every successful create_course run is the full
success trace. -/
theorem create_course_ok_events (data : Data) (lang : String) (s : Store)
    (h : (create_course data lang s).result = .ok) :
    (create_course data lang s).events = successTrace := by
  rcases create_course_classify data lang s with hcl | ⟨m, hm, _⟩ | ⟨_, he⟩
  · rw [hcl] at h; simp at h
  · rw [hm] at h; simp at h
  · exact he

/-- Helper: when the three keys are present and all four lookups
succeed, create_course succeeds and its store is exactly the result of
the step 4 to 8 writes: page creation, course creation, page role,
organization plugin, permission grant. -/
theorem create_course_success_eq (data : Data) (lang : String) (s : Store)
    (code title oc : String) (cp : Page) (org : Organization) (op : Page)
    (ha : data.lookup "course_code" = some code)
    (hb : data.lookup "course_title" = some title)
    (hc : data.lookup "organization_code" = some oc)
    (h1 : pageGetByReverseId s "courses" = .ok cp)
    (h2 : orgGetByCode s (strUpper oc) = .ok org)
    (h3 : pageGetByOrganization s org.id = .ok op)
    (h4 : placeholderGet
      (create_i18n_page s title false (some cp.id) none coursePageTemplate).1
      "course_organizations" = .ok "course_organizations") :
    create_course data lang s =
      { result := .ok,
        store :=
          createPermissionsForOrganization
            (addPlugin
              (createPageRole
                (courseCreate
                  (create_i18n_page s title false (some cp.id) none coursePageTemplate).2
                  (create_i18n_page s title false (some cp.id) none coursePageTemplate).1.id
                  code).2
                (courseCreate
                  (create_i18n_page s title false (some cp.id) none coursePageTemplate).2
                  (create_i18n_page s title false (some cp.id) none coursePageTemplate).1.id
                  code).1.id)
              lang
              (create_i18n_page s title false (some cp.id) none coursePageTemplate).1.id
              "course_organizations" "OrganizationPlugin" op.id)
            (courseCreate
              (create_i18n_page s title false (some cp.id) none coursePageTemplate).2
              (create_i18n_page s title false (some cp.id) none coursePageTemplate).1.id
              code).1.id
            org.id,
        events := successTrace } := by
  unfold create_course
  simp only [ha, hb, hc, h1, h2, h3, h4]

/-- Helper: with a present non-empty header passing the signature
check, the endpoint answer is determined by the result of
create_course: 200 empty body on success, 400 with the serialized
detail on ValidationError, and an unhandled fault otherwise. -/
theorem endpoint_auth_eq (body h : String) (secrets : List String)
    (sig : String → String → String) (data : Data) (lang : String) (s : Store)
    (hne : h ≠ "")
    (hok : signature_is_valid body h secrets sig = true) :
    create_courses_from_request body (some h) secrets sig data lang s =
      match (create_course data lang s).result with
      | .ok => .response { status := 200, body := .json none }
          (create_course data lang s).store
      | .validationError d => .response { status := 400, body := .json (some d) }
          (create_course data lang s).store
      | .fault m => .unhandled m (create_course data lang s).store := by
  simp [create_courses_from_request, hne, hok]

/-- A canonical courses root draft page for concrete runs. -/
def demoCoursesPage : Page :=
  { id := 1, title := "Courses", reverse_id := some "courses",
    publisher_is_draft := true, organization := none, parent := none,
    in_navigation := true, template := "richie/base.html", placeholders := [] }

/-- A store holding the courses root page but no organization. -/
def storeNoOrg : Store :=
  { emptyStore with pages := [demoCoursesPage], nextId := 2 }

/-- A demo organization whose stored code is uppercase. -/
def demoOrg : Organization := { id := 10, code := "ORG123" }

/-- The draft page owned by the demo organization. -/
def demoOrgPage : Page :=
  { id := 2, title := "Org", reverse_id := none, publisher_is_draft := true,
    organization := some 10, parent := none, in_navigation := true,
    template := "richie/organization.html", placeholders := [] }

/-- A fully provisioned store: courses root page, organization with its
draft page, and the course template declaring the organizations slot. -/
def demoStore : Store :=
  { pages := [demoCoursesPage, demoOrgPage], organizations := [demoOrg],
    courses := [], plugins := [], page_roles := [], org_permissions := [],
    templates := [(coursePageTemplate, ["course_organizations"])], nextId := 100 }

/-- A complete demo payload with a lowercase organization code. -/
def demoData : Data :=
  [("course_code", "cs-101a"), ("course_title", "Intro"),
   ("organization_code", "org123")]

/-- C4: with valid authentication and any payload, a lookup fault of
create_course propagates out of the endpoint unhandled, and a 400
response can only come from the missing-fields ValidationError, the
sole error the endpoint catches. -/
theorem claim_C4_lookup_faults_uncaught (body h : String) (secrets : List String)
    (sig : String → String → String) (data : Data) (lang : String) (s : Store)
    (hne : h ≠ "")
    (hok : signature_is_valid body h secrets sig = true) :
    (∀ m, (create_course data lang s).result = .fault m →
      create_courses_from_request body (some h) secrets sig data lang s =
        .unhandled m (create_course data lang s).store) ∧
    (∀ r s2, create_courses_from_request body (some h) secrets sig data lang s =
        .response r s2 → r.status = 400 →
      (create_course data lang s).result = .validationError missingFieldsDetail) := by
  have he := endpoint_auth_eq body h secrets sig data lang s hne hok
  constructor
  · intro m hm
    rw [he, hm]
  · intro r s2 hr h400
    rcases hres : (create_course data lang s).result with _ | d | m
    · rw [he, hres] at hr
      cases hr
      simp at h400
    · have hd := (create_course_validation_inv data lang s d hres).1
      rw [hd]
    · rw [he, hres] at hr
      cases hr

/-- Witness for C4: authenticated request against a store holding the
courses page but no organization escapes as an unhandled DoesNotExist
fault instead of a response. -/
theorem claim_C4_lookup_faults_uncaught_witness :
    create_courses_from_request "demo" (some "k.demo") ["k"] sigDemo
      [("course_code", "C1"), ("course_title", "T"), ("organization_code", "org1")]
      "en" storeNoOrg =
      .unhandled "Organization matching query does not exist." storeNoOrg := by
  have h := (claim_C4_lookup_faults_uncaught "demo" "k.demo" ["k"] sigDemo
    [("course_code", "C1"), ("course_title", "T"), ("organization_code", "org1")]
    "en" storeNoOrg (by simp) rfl).1
    "Organization matching query does not exist." rfl
  exact h

/-- C5: with valid authentication, a complete payload, and an
organization stored under the uppercased payload code, the organization
found is exactly the one with that uppercased code, the endpoint
answers 200 with the empty structured body, and the store gains a
course carrying the payload code. -/
theorem claim_C5_success (body h : String) (secrets : List String)
    (sig : String → String → String) (data : Data) (lang : String) (s : Store)
    (code title oc : String) (cp : Page) (org : Organization) (op : Page)
    (hne : h ≠ "")
    (hok : signature_is_valid body h secrets sig = true)
    (ha : data.lookup "course_code" = some code)
    (hb : data.lookup "course_title" = some title)
    (hc : data.lookup "organization_code" = some oc)
    (h1 : pageGetByReverseId s "courses" = .ok cp)
    (h2 : orgGetByCode s (strUpper oc) = .ok org)
    (h3 : pageGetByOrganization s org.id = .ok op)
    (h4 : placeholderGet
      (create_i18n_page s title false (some cp.id) none coursePageTemplate).1
      "course_organizations" = .ok "course_organizations") :
    org.code = (strUpper oc) ∧
    create_courses_from_request body (some h) secrets sig data lang s =
      .response { status := 200, body := .json none }
        (create_course data lang s).store ∧
    ∃ c, c ∈ (create_course data lang s).store.courses ∧ c.code = code := by
  have hs := create_course_success_eq data lang s code title oc cp org op
    ha hb hc h1 h2 h3 h4
  refine ⟨orgGetByCode_code s (strUpper oc) org h2, ?_, ?_⟩
  · have he := endpoint_auth_eq body h secrets sig data lang s hne hok
    rw [he, hs]
  · rw [hs]
    refine ⟨⟨s.nextId + 1, s.nextId, code⟩, ?_, rfl⟩
    simp [createPermissionsForOrganization, addPlugin, createPageRole,
      courseCreate, create_i18n_page]

/-- Witness for C5: payload code org123 against the stored code ORG123
gives a 200 with empty body, a created course, and the organization
located by the uppercased code. -/
theorem claim_C5_success_witness :
    demoOrg.code = strUpper "org123" ∧
    create_courses_from_request "demo" (some "k.demo") ["k"] sigDemo demoData
      "en" demoStore =
      .response { status := 200, body := .json none }
        (create_course demoData "en" demoStore).store :=
  ⟨(claim_C5_success "demo" "k.demo" ["k"] sigDemo demoData "en" demoStore
      "cs-101a" "Intro" "org123" demoCoursesPage demoOrg demoOrgPage
      (by simp) rfl rfl rfl rfl rfl rfl rfl rfl).1,
   (claim_C5_success "demo" "k.demo" ["k"] sigDemo demoData "en" demoStore
      "cs-101a" "Intro" "org123" demoCoursesPage demoOrg demoOrgPage
      (by simp) rfl rfl rfl rfl rfl rfl rfl rfl).2.1⟩

/-- C6: when create_course ends in the ValidationError, the store is
unchanged and no lookup or write event has happened: validation runs
before any other step. -/
theorem claim_C6_validation_atomicity (data : Data) (lang : String) (s : Store)
    (d : ErrorDetail)
    (h : (create_course data lang s).result = .validationError d) :
    (create_course data lang s).store = s ∧
    (create_course data lang s).events = [] :=
  ⟨(create_course_validation_inv data lang s d h).2.1,
   (create_course_validation_inv data lang s d h).2.2⟩

/-- Witness for C6: the empty payload fails validation over the
provisioned store and leaves it untouched, with an empty trace. -/
theorem claim_C6_validation_atomicity_witness :
    (create_course [] "en" demoStore).store = demoStore ∧
    (create_course [] "en" demoStore).events = [] :=
  claim_C6_validation_atomicity [] "en" demoStore missingFieldsDetail rfl

/-- C7: every successful create_course run follows the full success
trace, in which the organization plugin write sits strictly before the
unique permission grant: permissions are never granted before the
organization link exists. -/
theorem claim_C7_plugin_before_permissions (data : Data) (lang : String)
    (s : Store)
    (h : (create_course data lang s).result = .ok) :
    (create_course data lang s).events = successTrace ∧
    successTrace.indexOf Event.writeAddPlugin <
      successTrace.indexOf Event.writeGrantPermissions ∧
    successTrace.count Event.writeGrantPermissions = 1 := by
  refine ⟨create_course_ok_events data lang s h, ?_, ?_⟩ <;> decide

/-- Witness for C7: the concrete successful run over the provisioned
store exhibits the ordered trace. -/
theorem claim_C7_plugin_before_permissions_witness :
    (create_course demoData "en" demoStore).events = successTrace ∧
    successTrace.indexOf Event.writeAddPlugin <
      successTrace.indexOf Event.writeGrantPermissions ∧
    successTrace.count Event.writeGrantPermissions = 1 :=
  claim_C7_plugin_before_permissions demoData "en" demoStore rfl

/-- C8: a successful create_course stores the payload course code
verbatim on the new course, whose page is a child of the courses root,
out of navigation, without reverse identifier, on the course default
template. -/
theorem claim_C8_verbatim_code_and_page (data : Data) (lang : String) (s : Store)
    (code title oc : String) (cp : Page) (org : Organization) (op : Page)
    (ha : data.lookup "course_code" = some code)
    (hb : data.lookup "course_title" = some title)
    (hc : data.lookup "organization_code" = some oc)
    (h1 : pageGetByReverseId s "courses" = .ok cp)
    (h2 : orgGetByCode s (strUpper oc) = .ok org)
    (h3 : pageGetByOrganization s org.id = .ok op)
    (h4 : placeholderGet
      (create_i18n_page s title false (some cp.id) none coursePageTemplate).1
      "course_organizations" = .ok "course_organizations") :
    ∃ c p, c ∈ (create_course data lang s).store.courses ∧
      p ∈ (create_course data lang s).store.pages ∧
      c.code = code ∧ p.id = c.extended_object ∧ p.title = title ∧
      p.parent = some cp.id ∧ p.in_navigation = false ∧
      p.reverse_id = none ∧ p.template = coursePageTemplate := by
  have hs := create_course_success_eq data lang s code title oc cp org op
    ha hb hc h1 h2 h3 h4
  rw [hs]
  refine ⟨⟨s.nextId + 1, s.nextId, code⟩,
    { id := s.nextId, title := title, reverse_id := none,
      publisher_is_draft := true, organization := none,
      parent := some cp.id, in_navigation := false,
      template := coursePageTemplate,
      placeholders := ((s.templates.lookup coursePageTemplate).getD []) },
    ?_, ?_, rfl, rfl, rfl, rfl, rfl, rfl, rfl⟩
  · simp [createPermissionsForOrganization, addPlugin, createPageRole,
      courseCreate, create_i18n_page]
  · simp [createPermissionsForOrganization, addPlugin, createPageRole,
      courseCreate, create_i18n_page]

/-- Witness for C8: the mixed-case code cs-101a is stored verbatim on
the course created over the provisioned store. -/
theorem claim_C8_verbatim_code_and_page_witness :
    ∃ c p, c ∈ (create_course demoData "en" demoStore).store.courses ∧
      p ∈ (create_course demoData "en" demoStore).store.pages ∧
      c.code = "cs-101a" ∧ p.id = c.extended_object ∧ p.title = "Intro" ∧
      p.parent = some demoCoursesPage.id ∧ p.in_navigation = false ∧
      p.reverse_id = none ∧ p.template = coursePageTemplate :=
  claim_C8_verbatim_code_and_page demoData "en" demoStore
    "cs-101a" "Intro" "org123" demoCoursesPage demoOrg demoOrgPage
    rfl rfl rfl rfl rfl rfl rfl

/-- C10: a payload holding all three keys, with any values including
empty strings, never raises the ValidationError: execution proceeds to
the lookup steps, the trace opening on the courses-page lookup. -/
theorem claim_C10_no_emptiness_check (data : Data) (lang : String) (s : Store)
    (code title oc : String)
    (ha : data.lookup "course_code" = some code)
    (hb : data.lookup "course_title" = some title)
    (hc : data.lookup "organization_code" = some oc) :
    (∀ d, (create_course data lang s).result ≠ .validationError d) ∧
    (create_course data lang s).events.head? = some Event.lookupCoursesPage := by
  have hk := create_course_all_keys data lang s code title oc ha hb hc
  refine ⟨?_, hk.2⟩
  intro d hd
  rcases hk.1 with hr | ⟨m, hr⟩ <;> rw [hr] at hd <;> simp at hd

/-- Witness for C10: all three keys present with empty string values
produce no ValidationError and reach the courses-page lookup. -/
theorem claim_C10_no_emptiness_check_witness :
    (create_course [("course_code", ""), ("course_title", ""),
        ("organization_code", "")] "en" emptyStore).result ≠
      .validationError missingFieldsDetail ∧
    (create_course [("course_code", ""), ("course_title", ""),
        ("organization_code", "")] "en" emptyStore).events.head? =
      some Event.lookupCoursesPage :=
  ⟨(claim_C10_no_emptiness_check
      [("course_code", ""), ("course_title", ""), ("organization_code", "")]
      "en" emptyStore "" "" "" rfl rfl rfl).1 missingFieldsDetail,
   (claim_C10_no_emptiness_check
      [("course_code", ""), ("course_title", ""), ("organization_code", "")]
      "en" emptyStore "" "" "" rfl rfl rfl).2⟩

end CourseSync
